import Mathlib

/-! Verification of the rings-node session / signer / JSON-RPC core

A shallow embedding of the parts of the `rings-node` repository that the
checked claims are about:

* `src/core/src/ecc/signers/bip137.rs` — BIP-137 signer: `varint_buf_num`,
  `magic_hash`, `recover`, `verify`.
* `src/core/src/session.rs` — `Session`, `Authorizer`, `SessionManager`,
  `SessionManagerBuilder`, `pack_session`.
* `src/core/src/message/protocols/verify.rs` — `MessageVerification`.
* `src/node/src/jsonrpc/server.rs` — the JSON-RPC handlers and `RpcMeta`.

Machine integers are embedded as `Nat` with explicit `% 2 ^ w` where the
source can overflow.  Byte strings are `List Nat` (each element a byte
value).  Fallible Rust functions return `Except`; Rust code that can panic
is embedded into a `PanicOr` result so that a panic is an observable
outcome, not an undefined one.

External code that the repository calls but that is not under `src/`
(the libsecp256k1 wrapper `crate::ecc::recover_hash`, `Did`/`PublicKey`
parsing and formatting, `serde_json`, `base58_monero`) enters the model
either as an explicit function parameter or as a definition whose doc
comment starts with `Modelled from the spec:`.
-/

namespace RingsNode

/-! ## Little-endian byte strings -/

/-- The `k` little-endian bytes of `m` (Rust `to_le_bytes` of the low
`8 * k` bits of `m`). -/
def leBytes : Nat → Nat → List Nat
  | 0, _ => []
  | k + 1, m => m % 256 :: leBytes k (m / 256)

theorem leBytes_length (k m : Nat) : (leBytes k m).length = k := by
  induction k generalizing m with
  | zero => rfl
  | succ k ih => simp [leBytes, ih]

theorem leBytes_append (a b m : Nat) :
    leBytes (a + b) m = leBytes a m ++ leBytes b (m / 256 ^ a) := by
  induction a generalizing m with
  | zero => simp [leBytes]
  | succ a ih =>
      have : a + 1 + b = (a + b) + 1 := by omega
      rw [this]
      simp only [leBytes, ih (m / 256), List.cons_append]
      congr 2
      rw [Nat.div_div_eq_div_mul]
      congr 1
      rw [pow_succ, mul_comm]

/-! ## `varint_buf_num` (src/core/src/ecc/signers/bip137.rs, lines 48-68)

The source builds the 9-byte branch by allocating `[255, 0, …, 0]`,
copying the first four little-endian bytes of `n` into `buf[1..5]`,
copying the little-endian bytes of `(n >> 32) as u32` into `buf[5..9]`,
and truncating to 9 bytes (a no-op). -/

def varint_buf_num (n : Nat) : List Nat :=
  if n < 253 then
    [n % 256]
  else if n < 2 ^ 16 then
    253 :: leBytes 2 (n % 2 ^ 16)
  else if n < 2 ^ 32 then
    254 :: leBytes 4 (n % 2 ^ 32)
  else
    255 :: ((leBytes 8 n).take 4 ++ leBytes 4 (n / 2 ^ 32 % 2 ^ 32))

/-- Bitcoin's varint rule, written the way the spec states it:
one byte below 253, `0xfd` plus 2-byte LE below `2^16`, `0xfe` plus
4-byte LE below `2^32`, else `0xff` plus 8-byte LE. -/
def varint_bitcoin_rule (n : Nat) : List Nat :=
  if n < 253 then [n]
  else if n < 2 ^ 16 then 0xfd :: leBytes 2 n
  else if n < 2 ^ 32 then 0xfe :: leBytes 4 n
  else 0xff :: leBytes 8 n

theorem leBytes_take_four (n : Nat) : (leBytes 8 n).take 4 = leBytes 4 n := by
  have h : leBytes 8 n = leBytes 4 n ++ leBytes 4 (n / 256 ^ 4) :=
    leBytes_append 4 4 n
  rw [h, List.take_append_of_le_length (by rw [leBytes_length]),
    List.take_of_length_le (by rw [leBytes_length])]

/-- C7. For every `u64` value `n`, `varint_buf_num n` is exactly
Bitcoin's varint encoding: the single byte `n` when `n < 253`; `0xfd`
followed by the 2-byte little-endian form when `253 ≤ n < 2^16`; `0xfe`
followed by the 4-byte little-endian form when `2^16 ≤ n < 2^32`; and
`0xff` followed by the 8-byte little-endian form (9 bytes total)
otherwise. -/
theorem varint_buf_num_eq_bitcoin_rule (n : Nat) (hn : n < 2 ^ 64) :
    varint_buf_num n = varint_bitcoin_rule n := by
  unfold varint_buf_num varint_bitcoin_rule
  split_ifs with h1 h2 h3
  · rw [Nat.mod_eq_of_lt (by omega)]
  · rw [Nat.mod_eq_of_lt (by omega)]
  · rw [Nat.mod_eq_of_lt (by omega)]
  · congr 1
    rw [leBytes_take_four]
    have hd : n / 2 ^ 32 < 2 ^ 32 := by omega
    rw [Nat.mod_eq_of_lt hd]
    have := leBytes_append 4 4 n
    rw [show (256 : Nat) ^ 4 = 2 ^ 32 by norm_num] at this
    exact this.symm

/-- Witness for C7 at a concrete input in the 9-byte branch. -/
theorem varint_buf_num_eq_bitcoin_rule_witness :
    (2 ^ 40 + 7 < 2 ^ 64) ∧
      varint_buf_num (2 ^ 40 + 7) = varint_bitcoin_rule (2 ^ 40 + 7) :=
  ⟨by norm_num, varint_buf_num_eq_bitcoin_rule (2 ^ 40 + 7) (by norm_num)⟩

/-! ## Bytes of strings and big-endian integers -/

/-- UTF-8 encoding of one character (the Rust `str::as_bytes` view,
restated byte by byte). -/
def charBytes (c : Char) : List Nat :=
  let n := c.toNat
  if n < 0x80 then [n]
  else if n < 0x800 then
    [0xC0 ||| (n >>> 6), 0x80 ||| (n &&& 0x3F)]
  else if n < 0x10000 then
    [0xE0 ||| (n >>> 12), 0x80 ||| ((n >>> 6) &&& 0x3F), 0x80 ||| (n &&& 0x3F)]
  else
    [0xF0 ||| (n >>> 18), 0x80 ||| ((n >>> 12) &&& 0x3F),
      0x80 ||| ((n >>> 6) &&& 0x3F), 0x80 ||| (n &&& 0x3F)]

/-- The UTF-8 bytes of a string (Rust `str::as_bytes`). -/
def strBytes (s : String) : List Nat :=
  s.data.flatMap charBytes

/-- A big-endian byte string read as a natural number. -/
def beNat (bs : List Nat) : Nat :=
  bs.foldl (fun acc b => acc * 256 + b) 0

/-- The `k` big-endian bytes of `m` (Rust `to_be_bytes`). -/
def beBytes (k m : Nat) : List Nat :=
  (leBytes k m).reverse

/-! ## SHA-256

Modelled from the spec: the BIP-137 magic hash is
`SHA-256(SHA-256(varint(24) ‖ "Bitcoin Signed Message:\n" ‖ varint(len) ‖ msg))`;
the `sha2` crate that `src/core/src/ecc/signers/bip137.rs` calls is an
external dependency, so FIPS 180-4 SHA-256 is restated here in full. -/

def w32 (x : Nat) : Nat := x % 2 ^ 32

def rotr32 (x k : Nat) : Nat := w32 ((x >>> k) ||| (x <<< (32 - k)))

def not32 (x : Nat) : Nat := 2 ^ 32 - 1 - w32 x

def bsig0 (x : Nat) : Nat := rotr32 x 2 ^^^ rotr32 x 13 ^^^ rotr32 x 22

def bsig1 (x : Nat) : Nat := rotr32 x 6 ^^^ rotr32 x 11 ^^^ rotr32 x 25

def ssig0 (x : Nat) : Nat := rotr32 x 7 ^^^ rotr32 x 18 ^^^ (x >>> 3)

def ssig1 (x : Nat) : Nat := rotr32 x 17 ^^^ rotr32 x 19 ^^^ (x >>> 10)

def shaK : List Nat :=
  [1116352408, 1899447441, 3049323471, 3921009573, 961987163, 1508970993,
   2453635748, 2870763221, 3624381080, 310598401, 607225278, 1426881987,
   1925078388, 2162078206, 2614888103, 3248222580, 3835390401, 4022224774,
   264347078, 604807628, 770255983, 1249150122, 1555081692, 1996064986,
   2554220882, 2821834349, 2952996808, 3210313671, 3336571891, 3584528711,
   113926993, 338241895, 666307205, 773529912, 1294757372, 1396182291,
   1695183700, 1986661051, 2177026350, 2456956037, 2730485921, 2820302411,
   3259730800, 3345764771, 3516065817, 3600352804, 4094571909, 275423344,
   430227734, 506948616, 659060556, 883997877, 958139571, 1322822218,
   1537002063, 1747873779, 1955562222, 2024104815, 2227730452, 2361852424,
   2428436474, 2756734187, 3204031479, 3329325298]

def shaH0 : List Nat :=
  [1779033703, 3144134277, 1013904242, 2773480762,
   1359893119, 2600822924, 528734635, 1541459225]

/-- Extend the 16 loaded schedule words to 64 by the FIPS 180-4 rule. -/
def shaSchedule : Nat → List Nat → List Nat
  | 0, ws => ws
  | fuel + 1, ws =>
      let L := ws.length
      let next := w32 (ssig1 (ws.getD (L - 2) 0) + ws.getD (L - 7) 0 +
        ssig0 (ws.getD (L - 15) 0) + ws.getD (L - 16) 0)
      shaSchedule fuel (ws ++ [next])

/-- One SHA-256 round: the working state is `[a, b, c, d, e, f, g, h]`. -/
def shaRound (st : List Nat) (kw : Nat × Nat) : List Nat :=
  match st with
  | [a, b, c, d, e, f, g, h] =>
      let t1 := w32 (h + bsig1 e + ((e &&& f) ^^^ (not32 e &&& g)) + kw.1 + kw.2)
      let t2 := w32 (bsig0 a + ((a &&& b) ^^^ (a &&& c) ^^^ (b &&& c)))
      [w32 (t1 + t2), a, b, c, w32 (d + t1), e, f, g]
  | st => st

/-- Compress one 64-byte block into the running hash state. -/
def shaCompress (h : List Nat) (block : List Nat) : List Nat :=
  let ws0 := (List.range 16).map fun i => beNat ((block.drop (4 * i)).take 4)
  let ws := shaSchedule 48 ws0
  let stf := (shaK.zip ws).foldl shaRound h
  (h.zip stf).map fun x => w32 (x.1 + x.2)

def shaBlocks : Nat → List Nat → List Nat → List Nat
  | 0, h, _ => h
  | fuel + 1, h, bytes =>
      match bytes with
      | [] => h
      | _ => shaBlocks fuel (shaCompress h (bytes.take 64)) (bytes.drop 64)

/-- SHA-256 of a byte string. -/
def sha256 (msg : List Nat) : List Nat :=
  let z := (64 - (msg.length + 9) % 64) % 64
  let padded := msg ++ 0x80 :: List.replicate z 0 ++ beBytes 8 (8 * msg.length)
  (shaBlocks (padded.length + 1) shaH0 padded).flatMap (beBytes 4)

/-! ## `magic_hash` (src/core/src/ecc/signers/bip137.rs, lines 70-80) -/

def magic_hash (msg : String) : List Nat :=
  let magicBytes := strBytes "Bitcoin Signed Message:\n"
  let msgBytes := strBytes msg
  let buf := varint_buf_num magicBytes.length ++ magicBytes ++
    varint_buf_num msgBytes.length ++ msgBytes
  sha256 (sha256 buf)

/-! ## secp256k1 and ECDSA public-key recovery

Modelled from the spec: `crate::ecc::recover_hash` (a wrapper around the
`libsecp256k1` crate, not under `src/`) recovers an ECDSA-secp256k1 public
key from a 32-byte digest and a 65-byte `(r ‖ s ‖ recovery_id)` signature,
failing with `BadSignature` on an out-of-range or unusable `r`/`s` and with
`BadRecoveryId` on a recovery id above 3.  The curve arithmetic below is
the standard Jacobian-coordinate implementation of `y² = x³ + 7`. -/

/-- Signer errors, as the spec names them: `BadSignature`, `BadRecoveryId`,
`CurveError`. -/
inductive SignerErr where
  | BadSignature
  | BadRecoveryId
  | CurveError
  deriving DecidableEq, Repr

/-- The secp256k1 field prime. -/
def secpP : Nat := 2 ^ 256 - 2 ^ 32 - 977

/-- The secp256k1 group order. -/
def secpN : Nat :=
  0xFFFFFFFFFFFFFFFFFFFFFFFFFFFFFFFEBAAEDCE6AF48A03BBFD25E8CD0364141

/-- The base point of secp256k1 (affine). -/
def secpG : Nat × Nat :=
  (0x79BE667EF9DCBBAC55A06295CE870B07029BFCDB2DCE28D959F2815B16F81798,
   0x483ADA7726A3C4655DA4FBFC0E1108A8FD17B448A68554199C47D08FFB10D4B8)

/-- Fuelled modular exponentiation (enough fuel for 256-bit exponents). -/
def powModAux : Nat → Nat → Nat → Nat → Nat
  | 0, _, _, _ => 1
  | fuel + 1, b, e, m =>
      if e = 0 then 1 % m
      else
        let r := powModAux fuel (b * b % m) (e / 2) m
        if e % 2 = 1 then r * b % m else r

def powMod (b e m : Nat) : Nat := powModAux 257 (b % m) e m

/-- Modular inverse by Fermat's little theorem (`m` prime). -/
def invMod (a m : Nat) : Nat := powMod a (m - 2) m

/-- Multiplication in the secp256k1 base field. -/
def fmul (a b : Nat) : Nat := a * b % secpP

/-- Addition in the secp256k1 base field. -/
def fadd (a b : Nat) : Nat := (a + b) % secpP

/-- Subtraction in the secp256k1 base field. -/
def fsub (a b : Nat) : Nat := (a % secpP + (secpP - b % secpP)) % secpP

/-- Jacobian point doubling on `y² = x³ + 7` (`a = 0`); the point at
infinity is any triple with `Z = 0`. -/
def jDouble (P : Nat × Nat × Nat) : Nat × Nat × Nat :=
  let (X, Y, Z) := P
  let S := fmul 4 (fmul X (fmul Y Y))
  let M := fmul 3 (fmul X X)
  let X2 := fsub (fmul M M) (fadd S S)
  let Y2 := fsub (fmul M (fsub S X2)) (fmul 8 (fmul (fmul Y Y) (fmul Y Y)))
  let Z2 := fmul 2 (fmul Y Z)
  (X2, Y2, Z2)

/-- Mixed addition: Jacobian plus affine. -/
def jAddMixed (P : Nat × Nat × Nat) (q : Nat × Nat) : Nat × Nat × Nat :=
  let (X1, Y1, Z1) := P
  let (x2, y2) := q
  if Z1 % secpP = 0 then (x2, y2, 1)
  else
    let Z1Z1 := fmul Z1 Z1
    let U2 := fmul x2 Z1Z1
    let S2 := fmul y2 (fmul Z1 Z1Z1)
    let H := fsub U2 X1
    let R := fsub S2 Y1
    if H = 0 then
      if R = 0 then jDouble P else (0, 1, 0)
    else
      let H2 := fmul H H
      let H3 := fmul H H2
      let X3 := fsub (fsub (fmul R R) H3) (fmul 2 (fmul X1 H2))
      let Y3 := fsub (fmul R (fsub (fmul X1 H2) X3)) (fmul Y1 H3)
      let Z3 := fmul Z1 H
      (X3, Y3, Z3)

/-- General Jacobian addition. -/
def jAdd (P Q : Nat × Nat × Nat) : Nat × Nat × Nat :=
  let (X1, Y1, Z1) := P
  let (X2, Y2, Z2) := Q
  if Z1 % secpP = 0 then Q
  else if Z2 % secpP = 0 then P
  else
    let Z1Z1 := fmul Z1 Z1
    let Z2Z2 := fmul Z2 Z2
    let U1 := fmul X1 Z2Z2
    let U2 := fmul X2 Z1Z1
    let S1 := fmul Y1 (fmul Z2 Z2Z2)
    let S2 := fmul Y2 (fmul Z1 Z1Z1)
    let H := fsub U2 U1
    let R := fsub S2 S1
    if H = 0 then
      if R = 0 then jDouble P else (0, 1, 0)
    else
      let H2 := fmul H H
      let H3 := fmul H H2
      let X3 := fsub (fsub (fmul R R) H3) (fmul 2 (fmul U1 H2))
      let Y3 := fsub (fmul R (fsub (fmul U1 H2) X3)) (fmul S1 H3)
      let Z3 := fmul (fmul Z1 Z2) H
      (X3, Y3, Z3)

/-- Double-and-add scalar multiplication of an affine point, MSB first. -/
def smulAux : Nat → Nat → Nat × Nat → Nat × Nat × Nat → Nat × Nat × Nat
  | 0, _, _, acc => acc
  | fuel + 1, k, q, acc =>
      let acc1 := jDouble acc
      let acc2 := if k.testBit fuel then jAddMixed acc1 q else acc1
      smulAux fuel k q acc2

def scalarMul (k : Nat) (q : Nat × Nat) : Nat × Nat × Nat :=
  smulAux 256 k q (0, 1, 0)

/-- Back to affine coordinates; `none` is the point at infinity. -/
def toAffine (P : Nat × Nat × Nat) : Option (Nat × Nat) :=
  let (X, Y, Z) := P
  if Z % secpP = 0 then none
  else
    let zi := invMod Z secpP
    some (fmul X (fmul zi zi), fmul Y (fmul zi (fmul zi zi)))

/-- Modelled from the spec: `crate::ecc::recover_hash(hash, sig)` — ECDSA
public-key recovery (SEC 1, §4.1.6) from the 32-byte digest `hash` and the
65-byte `(r ‖ s ‖ recovery_id)` signature `sig`, both big-endian. -/
def ecdsaRecoverHash (hash : List Nat) (sig : List Nat) : Except SignerErr (Nat × Nat) :=
  let r := beNat (sig.take 32)
  let s := beNat ((sig.drop 32).take 32)
  let recid := sig.getD 64 0
  if 4 ≤ recid then .error .BadRecoveryId
  else if r = 0 ∨ secpN ≤ r ∨ s = 0 ∨ secpN ≤ s then .error .BadSignature
  else
    let x := r + recid / 2 * secpN
    if secpP ≤ x then .error .BadSignature
    else
      let ySq := (powMod x 3 secpP + 7) % secpP
      let y0 := powMod ySq ((secpP + 1) / 4) secpP
      if y0 * y0 % secpP ≠ ySq then .error .BadSignature
      else
        let y := if y0 % 2 = recid % 2 then y0 else secpP - y0
        let z := beNat hash % secpN
        let rinv := invMod r secpN
        let u1 := (secpN - z * rinv % secpN) % secpN
        let u2 := s * rinv % secpN
        let Q := jAdd (scalarMul u1 secpG) (scalarMul u2 (x, y))
        match toAffine Q with
        | none => .error .BadSignature
        | some q => .ok q

/-! ## `bip137::recover` / `bip137::verify`
(src/core/src/ecc/signers/bip137.rs, lines 12-46)

The source mutates a copy of the signature: `rotate_left(1)` (which panics
when the vector is empty, since `mid = 1 > len`), `array_mut_ref![sig, 0, 65]`
(which panics when fewer than 65 bytes remain), and `sig_byte[64] -= 27`
(checked `u8` arithmetic: panics on underflow in debug builds, wraps in
release builds; the theorems below only use inputs on which the two
semantics agree, and the panic branch records the debug behaviour).
A panic is modelled as an explicit `PanicOr.panicked` outcome. -/

/-- Result of running Rust code that can panic. -/
inductive PanicOr (α : Type) where
  | panicked (reason : String)
  | returned (val : α)
  deriving DecidableEq, Repr

/-- Rust `Vec::rotate_left(1)` on a non-empty vector. -/
def rotate_left_one : List Nat → List Nat
  | [] => []
  | x :: xs => xs ++ [x]

/-- Rust `bip137::recover`, with the external `crate::ecc::recover_hash`
supplied as a parameter. -/
def bip137_recover {PK : Type} (recover_hash : List Nat → List Nat → Except SignerErr PK)
    (msg : String) (sig : List Nat) : PanicOr (Except SignerErr PK) :=
  if sig.length < 1 then .panicked "rotate_left: mid greater than len"
  else
    let sig1 := rotate_left_one sig
    if sig1.length < 65 then .panicked "array_mut_ref: index out of bounds"
    else
      let sig65 := sig1.take 65
      let v := sig65.getD 64 0
      if v < 27 then .panicked "attempt to subtract with overflow"
      else .returned (recover_hash (magic_hash msg) (sig65.take 64 ++ [v - 27]))

/-- Rust `bip137::verify`: recover and compare the recovered key's address,
with the external address derivation supplied as a parameter. -/
def bip137_verify {PK : Type} (recover_hash : List Nat → List Nat → Except SignerErr PK)
    (pkAddress : PK → Nat) (msg : String) (address : Nat) (sig : List Nat) : PanicOr Bool :=
  match bip137_recover recover_hash msg sig with
  | .panicked reason => .panicked reason
  | .returned (.ok pk) => .returned (pkAddress pk == address)
  | .returned (.error _) => .returned false

/-! ## Session layer (src/core/src/session.rs) -/

/-- The rings-core error variants reached by the embedded code
(`src/core/src/error.rs` is not under `src/`; the variants are the ones
named at the embedded call sites and in the spec's error taxonomy). -/
inductive Error where
  | SessionExpired
  | VerifySignatureFailed
  | UnknownAuthorizer
  | Decode
  | Deserialize
  | SerializeError
  | Encode
  | SerializeToString
  deriving DecidableEq, Repr

/-- A 160-bit ring identifier. -/
abbrev Did := Nat

/-- The external cryptographic collaborators of the session layer.  All of
them live in the repository outside `src/` (`src/core/src/ecc/…`) or in
external crates, so they enter the model as explicit parameters, bundled
here.  Claims about the session layer are quantified over this bundle;
witnesses instantiate it with concrete executable functions. -/
structure Crypto (PK : Type) where
  /-- Rust `signers::secp256k1::recover`: ECDSA-secp256k1 key recovery from a
  message and a 65-byte `(r ‖ s ‖ v)` signature. -/
  secpRecover : String → List Nat → Except SignerErr PK
  /-- Rust `PublicKey::address()`: the low 20 bytes of the Keccak-256 of the
  uncompressed key. -/
  pkAddress : PK → Did
  /-- Rust `signers::eip191::verify`. -/
  eip191Verify : String → Did → List Nat → Bool
  /-- Rust `crate::ecc::recover_hash`, the external libsecp256k1 wrapper
  consumed by the in-src `signers::bip137` (whose own control flow —
  including its panics — is the `bip137_verify` model above). -/
  recoverHash : List Nat → List Nat → Except SignerErr PK
  /-- Rust `signers::ed25519::verify`. -/
  edVerify : String → Did → List Nat → PK → Bool
  /-- Rust `Did`'s `Display` rendering. -/
  didStr : Did → String
  /-- Rust `Did::from_str`: parses a string into a 160-bit identifier, failing
  on strings that do not denote one. -/
  didFromStr : String → Except Error Did
  /-- Rust `PublicKey::try_from_b58t`. -/
  pkFromB58 : String → Except Error PK
  /-- Rust `SecretKey::address()`. -/
  skAddress : Nat → Did
  /-- Rust `signers::secp256k1::sign_raw` (the Rust function wraps the bytes in
  `Ok` unconditionally, so it is modelled as total). -/
  secpSignRaw : Nat → String → List Nat

/-- Modelled from the spec: `signers::secp256k1::verify`
(`src/core/src/ecc/signers/secp256k1.rs`, not under `src/`) recovers the
public key from the signature and compares its address with the expected
one. -/
def secp256k1_verify {PK : Type} (c : Crypto PK) (msg : String) (address : Did)
    (sig : List Nat) : Bool :=
  match c.secpRecover msg sig with
  | .ok pk => c.pkAddress pk == address
  | .error _ => false

/-- Rust `pack_session` (src/core/src/session.rs, lines 28-30):
`format!("{}\n{}\n{}", session_id, ts_ms, ttl_ms)`. -/
def pack_session {PK : Type} (c : Crypto PK) (session_id : Did) (ts_ms ttl_ms : Nat) : String :=
  c.didStr session_id ++ "\n" ++ toString ts_ms ++ "\n" ++ toString ttl_ms

/-- Rust `Authorizer` (src/core/src/session.rs, lines 93-103). -/
inductive Authorizer (PK : Type) where
  | Secp256k1 (did : Did)
  | EIP191 (did : Did)
  | BIP137 (did : Did)
  | Ed25519 (pk : PK)
  deriving DecidableEq

/-- Rust `Session` (src/core/src/session.rs, lines 76-88).  `ttl_ms` is a
`usize` and `ts_ms` a `u128`. -/
structure Session (PK : Type) where
  session_id : Did
  authorizer : Authorizer PK
  ttl_ms : Nat
  ts_ms : Nat
  sig : List Nat
  deriving DecidableEq

/-- Rust `Session::pack`. -/
def Session.pack {PK : Type} (c : Crypto PK) (s : Session PK) : String :=
  pack_session c s.session_id s.ts_ms s.ttl_ms

/-- Rust `Session::is_expired`: `now > ts_ms + ttl_ms as u128`, the sum taken
in `u128` (wrapping in release builds, hence the explicit `% 2 ^ 128`);
the ambient clock `utils::get_epoch_ms()` is the explicit `now`. -/
def Session.is_expired {PK : Type} (s : Session PK) (now : Nat) : Bool :=
  (s.ts_ms + s.ttl_ms) % 2 ^ 128 < now

/-- The authorizer-scheme dispatch inside `Session::verify_self`
(src/core/src/session.rs, lines 218-227): verify `sig` over the packed
canonical string under the scheme named by the variant. -/
def Session.scheme_verify {PK : Type} (c : Crypto PK) (s : Session PK) : PanicOr Bool :=
  match s.authorizer with
  | .Secp256k1 did => .returned (secp256k1_verify c (s.pack c) did s.sig)
  | .EIP191 did => .returned (c.eip191Verify (s.pack c) did s.sig)
  | .BIP137 did => bip137_verify c.recoverHash c.pkAddress (s.pack c) did s.sig
  | .Ed25519 pk => .returned (c.edVerify (s.pack c) (c.pkAddress pk) s.sig pk)

/-- Rust `Session::verify_self` (src/core/src/session.rs, lines 211-232).
The BIP-137 arm goes through the in-src `bip137::verify`, so the whole
check can panic instead of returning (short session signatures). -/
def Session.verify_self {PK : Type} (c : Crypto PK) (now : Nat) (s : Session PK) :
    PanicOr (Except Error Unit) :=
  if s.is_expired now then .returned (.error .SessionExpired)
  else
    match s.scheme_verify c with
    | .panicked reason => .panicked reason
    | .returned true => .returned (.ok ())
    | .returned false => .returned (.error .VerifySignatureFailed)

/-- Rust `Session::verify` (src/core/src/session.rs, lines 235-241); the
`?` on `verify_self` propagates its error, and a panic inside it
propagates as a panic. -/
def Session.verify {PK : Type} (c : Crypto PK) (now : Nat) (s : Session PK)
    (msg : String) (sig : List Nat) : PanicOr (Except Error Unit) :=
  match s.verify_self c now with
  | .panicked reason => .panicked reason
  | .returned (.error e) => .returned (.error e)
  | .returned (.ok _) =>
      if secp256k1_verify c msg s.session_id sig then .returned (.ok ())
      else .returned (.error .VerifySignatureFailed)

/-- Rust `SessionManager` (src/core/src/session.rs, lines 64-69); the secret
key is a scalar. -/
structure SessionManager (PK : Type) where
  session : Session PK
  session_key : Nat
  deriving DecidableEq

/-- Rust `SessionManager::sign`. -/
def SessionManager.sign {PK : Type} (c : Crypto PK) (sm : SessionManager PK)
    (msg : String) : List Nat :=
  c.secpSignRaw sm.session_key msg

/-- Rust `impl TryFrom<(String, String)> for Authorizer`
(src/core/src/session.rs, lines 105-119). -/
def Authorizer.try_from {PK : Type} (c : Crypto PK) (authorizer_entity authorizer_type : String) :
    Except Error (Authorizer PK) :=
  match authorizer_type with
  | "secp256k1" => (c.didFromStr authorizer_entity).map .Secp256k1
  | "eip191" => (c.didFromStr authorizer_entity).map .EIP191
  | "bip137" => (c.didFromStr authorizer_entity).map .BIP137
  | "ed25519" => (c.pkFromB58 authorizer_entity).map .Ed25519
  | _ => .error .UnknownAuthorizer

/-- Rust `SessionManagerBuilder` (src/core/src/session.rs, lines 39-51). -/
structure SessionManagerBuilder where
  session_key : Nat
  authorizer_entity : String
  authorizer_type : String
  ttl_ms : Nat
  ts_ms : Nat
  sig : List Nat
  deriving DecidableEq

/-- Rust `SessionManagerBuilder::build` (src/core/src/session.rs, lines
179-195); `now` is the clock at which `verify_self` runs.  The two `?`
operators propagate the errors of `Authorizer::try_from` and
`verify_self`; a panic inside `verify_self` propagates as a panic. -/
def SessionManagerBuilder.build {PK : Type} (c : Crypto PK) (now : Nat)
    (b : SessionManagerBuilder) : PanicOr (Except Error (SessionManager PK)) :=
  match Authorizer.try_from c b.authorizer_entity b.authorizer_type with
  | .error e => .returned (.error e)
  | .ok authorizer =>
      let session : Session PK :=
        { session_id := c.skAddress b.session_key
          authorizer := authorizer
          ttl_ms := b.ttl_ms
          ts_ms := b.ts_ms
          sig := b.sig }
      match session.verify_self c now with
      | .panicked reason => .panicked reason
      | .returned (.error e) => .returned (.error e)
      | .returned (.ok _) =>
          .returned (.ok { session := session, session_key := b.session_key })

/-- Rust `SessionManager::dump` (src/core/src/session.rs, lines 298-301), with
`serde_json::to_string`, `str::as_bytes` and `base58_monero::encode_check`
as parameters. -/
def SessionManager.dump {PK : Type} (jsonToString : SessionManager PK → Except Unit String)
    (strToBytes : String → List Nat) (b58encodeCheck : List Nat → Except Unit String)
    (sm : SessionManager PK) : Except Error String :=
  match jsonToString sm with
  | .error _ => .error .SerializeError
  | .ok s =>
      match b58encodeCheck (strToBytes s) with
      | .error _ => .error .Encode
      | .ok d => .ok d

/-- Rust `impl FromStr for SessionManager` (src/core/src/session.rs, lines
126-131), with `base58_monero::decode_check` and
`serde_json::from_slice` as parameters. -/
def SessionManager.from_str {PK : Type} (b58decodeCheck : String → Except Unit (List Nat))
    (jsonFromBytes : List Nat → Except Unit (SessionManager PK)) (s : String) :
    Except Error (SessionManager PK) :=
  match b58decodeCheck s with
  | .error _ => .error .Decode
  | .ok bytes =>
      match jsonFromBytes bytes with
      | .error _ => .error .Deserialize
      | .ok sm => .ok sm

/-! ## Message verification (src/core/src/message/protocols/verify.rs) -/

/-- Rust `MessageVerification` (lines 18-23). -/
structure MessageVerification (PK : Type) where
  session : Session PK
  ttl_ms : Nat
  ts_ms : Nat
  sig : List Nat
  deriving DecidableEq

/-- Rust `MessageVerification::pack_msg` (lines 50-55).  `serData` stands for
the outcome of `serde_json::to_string(data)`: `some s` when serialization
of the payload body succeeds with string `s`, `none` when it fails. -/
def MessageVerification.pack_msg (serData : Option String) (ts_ms ttl_ms : Nat) :
    Except Error String :=
  match serData with
  | some s => .ok (s ++ "\n" ++ toString ts_ms ++ "\n" ++ toString ttl_ms)
  | none => .error .SerializeToString

/-- Rust `MessageVerification::verify` (lines 27-40): false on a failing
serialization, otherwise the session check; a panic inside the session
check (BIP-137 arm) propagates. -/
def MessageVerification.verify {PK : Type} (c : Crypto PK) (now : Nat)
    (mv : MessageVerification PK) (serData : Option String) : PanicOr Bool :=
  match MessageVerification.pack_msg serData mv.ts_ms mv.ttl_ms with
  | .error _ => .returned false
  | .ok msg =>
      match mv.session.verify c now msg mv.sig with
      | .panicked reason => .panicked reason
      | .returned (.ok _) => .returned true
      | .returned (.error _) => .returned false

/-! ## JSON-RPC handlers (src/node/src/jsonrpc/server.rs)

Each handler is embedded with its control-flow skeleton: the
`RpcMeta::require_authed` gate exactly where the source places it, the
parameter extraction steps with their `InvalidParams` fallbacks, and the
processor / codec effects as explicit function parameters (they live in
`Processor`, `Swarm` and external crates, outside the analysed module).
The `is_auth` flag is the only `RpcMeta` field the gate reads. -/

/-- The jsonrpc error values constructed by the handlers themselves;
errors coming out of processor calls are whatever the corresponding
parameter returns. -/
inductive RpcError where
  | NoPermission
  | InvalidParams
  | DecodeError
  | EncodeError
  | SerdeJsonError
  | InvalidDid
  | Other (tag : Nat)
  deriving DecidableEq, Repr

/-- Rust `RpcMeta::require_authed` (lines 59-64). -/
def require_authed (is_auth : Bool) : Except RpcError Unit :=
  if !is_auth then .error .NoPermission else .ok ()

/-- Rust `params.first().ok_or(InvalidParams)`. -/
def firstOrInvalid {α : Type} : List α → Except RpcError α
  | [] => .error .InvalidParams
  | x :: _ => .ok x

/-- Rust `opt.ok_or(InvalidParams)` for the `.as_str()` / `.as_i64()` / `.get(i)`
extractions. -/
def someOrInvalid {α : Type} : Option α → Except RpcError α
  | none => .error .InvalidParams
  | some x => .ok x

/-- Rust `connect_peer_via_http` (lines 113-125). -/
def connect_peer_via_http {V : Type} (is_auth : Bool) (params : Except RpcError (List String))
    (connectOp : String → Except RpcError V) : Except RpcError V := do
  require_authed is_auth
  let p ← params
  let peer_url ← firstOrInvalid p
  connectOp peer_url

/-- Rust `connect_with_seed` (lines 128-152); the seed filtering and the joined
connection attempts are the continuation. -/
def connect_with_seed {V Seed : Type} (is_auth : Bool) (params : Except RpcError (List Seed))
    (connectSeedOp : Seed → Except RpcError V) : Except RpcError V := do
  require_authed is_auth
  let p ← params
  let seed ← firstOrInvalid p
  connectSeedOp seed

/-- Rust `connect_with_did` (lines 155-169). -/
def connect_with_did {V : Type} (is_auth : Bool) (params : Except RpcError (List String))
    (didParse : String → Except Unit Did) (connectDidOp : Did → Except RpcError V) :
    Except RpcError V := do
  require_authed is_auth
  let p ← params
  let address_str ← firstOrInvalid p
  let did ← match didParse address_str with
    | .ok d => pure d
    | .error _ => .error .InvalidParams
  connectDidOp did

/-- Rust `create_offer` (lines 172-188). -/
def create_offer {V Payload : Type} (is_auth : Bool)
    (createOfferOp : Except RpcError Payload) (encodeOp : Payload → Except Unit String)
    (toValueOp : String → Except Unit V) : Except RpcError V := do
  require_authed is_auth
  let offer_payload ← createOfferOp
  let encoded ← match encodeOp offer_payload with
    | .ok s => pure s
    | .error _ => .error .EncodeError
  match toValueOp encoded with
  | .ok v => pure v
  | .error _ => .error .SerdeJsonError

set_option linter.unusedVariables false in
/-- Rust `answer_offer` (lines 191-215): the one handler with no
`require_authed` call.  `fromEncoded` is
`MessagePayload::<Message>::from_encoded`. -/
def answer_offer {V Payload APayload : Type} (is_auth : Bool)
    (params : Except RpcError (List String)) (fromEncoded : String → Except Unit Payload)
    (answerOfferOp : Payload → Except RpcError APayload)
    (encodeOp : APayload → Except Unit String) (toValueOp : String → Except Unit V) :
    Except RpcError V := do
  let p ← params
  let offer_payload_str ← firstOrInvalid p
  let offer_payload ← match fromEncoded offer_payload_str with
    | .ok x => pure x
    | .error _ => .error .DecodeError
  let answer_payload ← answerOfferOp offer_payload
  let encoded ← match encodeOp answer_payload with
    | .ok s => pure s
    | .error _ => .error .EncodeError
  match toValueOp encoded with
  | .ok v => pure v
  | .error _ => .error .SerdeJsonError

/-- Rust `accept_answer` (lines 218-242); the ICE-state read and response
shaping are the continuation. -/
def accept_answer {V Payload : Type} (is_auth : Bool)
    (params : Except RpcError (List String)) (fromEncoded : String → Except Unit Payload)
    (acceptAnswerOp : Payload → Except RpcError V) : Except RpcError V := do
  require_authed is_auth
  let p ← params
  let answer_payload_str ← firstOrInvalid p
  let answer_payload ← match fromEncoded answer_payload_str with
    | .ok x => pure x
    | .error _ => .error .DecodeError
  acceptAnswerOp answer_payload

/-- Rust `list_peers` (lines 245-259). -/
def list_peers {V : Type} (is_auth : Bool) (listOp : Except RpcError V) :
    Except RpcError V := do
  require_authed is_auth
  listOp

/-- Rust `close_connection` (lines 262-271). -/
def close_connection {V : Type} (is_auth : Bool) (params : Except RpcError (List String))
    (didParse : String → Except Unit Did) (disconnectOp : Did → Except RpcError Unit)
    (emptyObj : V) : Except RpcError V := do
  require_authed is_auth
  let p ← params
  let did_str ← firstOrInvalid p
  let did ← match didParse did_str with
    | .ok d => pure d
    | .error _ => .error .InvalidDid
  disconnectOp did
  pure emptyObj

/-- Rust `list_pendings` (lines 274-288). -/
def list_pendings {V : Type} (is_auth : Bool) (listOp : Except RpcError V) :
    Except RpcError V := do
  require_authed is_auth
  listOp

/-- Rust `close_pending_transport` (lines 291-301). -/
def close_pending_transport {V : Type} (is_auth : Bool)
    (params : Except RpcError (List String)) (closeOp : String → Except RpcError Unit)
    (emptyObj : V) : Except RpcError V := do
  require_authed is_auth
  let p ← params
  let transport_id ← firstOrInvalid p
  closeOp transport_id
  pure emptyObj

/-- The `destination` / `text` fields extracted by `send_raw_message`
(`params.get("…").and_then(as_str)`). -/
structure RawMsgParams where
  destination : Option String
  text : Option String

/-- Rust `send_raw_message` (lines 304-327). -/
def send_raw_message {V : Type} (is_auth : Bool) (params : Except RpcError RawMsgParams)
    (sendOp : String → String → Except RpcError V) : Except RpcError V := do
  require_authed is_auth
  let p ← params
  let destination ← someOrInvalid p.destination
  let text ← someOrInvalid p.text
  sendOp destination text

/-- The positional params of `send_custom_message`: `get(0).as_str`,
`get(1).as_u64`, `get(2).as_str`. -/
structure CustomMsgParams where
  destination : Option String
  message_type : Option Nat
  data : Option String

/-- Rust `send_custom_message` (lines 334-369); the `u16` range check is the
`try_into`, `b64decode` is `base64::decode`. -/
def send_custom_message {V : Type} (is_auth : Bool) (params : Except RpcError CustomMsgParams)
    (b64decode : String → Except Unit (List Nat))
    (sendOp : String → Nat → List Nat → Except RpcError V) : Except RpcError V := do
  require_authed is_auth
  let p ← params
  let destination ← someOrInvalid p.destination
  let mt ← someOrInvalid p.message_type
  let message_type ← if mt < 2 ^ 16 then pure mt else .error .InvalidParams
  let data_str ← someOrInvalid p.data
  let data ← match b64decode data_str with
    | .ok d => pure d
    | .error _ => .error .InvalidParams
  sendOp destination message_type data

/-- Rust `send_simple_text_message` (lines 371-397). -/
def send_simple_text_message {V : Type} (is_auth : Bool)
    (params : Except RpcError (Option String × Option String))
    (sendOp : String → String → Except RpcError V) : Except RpcError V := do
  require_authed is_auth
  let p ← params
  let destination ← someOrInvalid p.1
  let text ← someOrInvalid p.2
  sendOp destination text

/-- Rust `send_http_request_message` (lines 400-426). -/
def send_http_request_message {V Req : Type} (is_auth : Bool)
    (params : Except RpcError (Option String × Option Req))
    (sendOp : String → Req → Except RpcError V) : Except RpcError V := do
  require_authed is_auth
  let p ← params
  let destination ← someOrInvalid p.1
  let request ← someOrInvalid p.2
  sendOp destination request

/-- Rust `publish_message_to_topic` (lines 428-448). -/
def publish_message_to_topic {V Enc : Type} (is_auth : Bool)
    (params : Except RpcError (Option String × Option String))
    (encodeOp : String → Except Unit Enc)
    (appendOp : String → Enc → Except RpcError Unit) (emptyObj : V) :
    Except RpcError V := do
  require_authed is_auth
  let p ← params
  let topic ← someOrInvalid p.1
  let data_str ← someOrInvalid p.2
  let data ← match encodeOp data_str with
    | .ok d => pure d
    | .error _ => .error .InvalidParams
  appendOp topic data
  pure emptyObj

/-- The positional params of `fetch_messages_of_topic`: `get(0).as_str`
and `get(1).as_i64`. -/
structure FetchParams where
  topic : Option String
  index : Option Int

/-- The Rust `i64 as usize` cast: two's-complement wrap into `[0, 2^64)`. -/
def usize_of_i64 (i : Int) : Nat :=
  (i % (2 : Int) ^ 64).toNat

/-- Rust `fetch_messages_of_topic` (lines 450-481).  `Blob` is the vnode entry
type (`Encoded`), `decodeOp` its `decode`; the returned list models the
`json!(messages)` value. -/
def fetch_messages_of_topic {Blob : Type} (is_auth : Bool)
    (params : Except RpcError FetchParams) (genDid : String → Except Unit Did)
    (storageFetch : Did → Except RpcError Unit)
    (storageCheckCache : Did → Option (List Blob))
    (decodeOp : Blob → Except Unit String) : Except RpcError (List String) := do
  require_authed is_auth
  let p ← params
  let topic ← someOrInvalid p.topic
  let index ← someOrInvalid p.index
  let vid ← match genDid topic with
    | .ok v => pure v
    | .error _ => .error .InvalidParams
  storageFetch vid
  match storageCheckCache vid with
  | some data =>
      pure (((data.drop (usize_of_i64 index)).map decodeOp).filterMap Except.toOption)
  | none => pure []

/-- Rust `register_service` (lines 483-493). -/
def register_service {V : Type} (is_auth : Bool) (params : Except RpcError (Option String))
    (registerOp : String → Except RpcError Unit) (emptyObj : V) : Except RpcError V := do
  require_authed is_auth
  let p ← params
  let name ← someOrInvalid p
  registerOp name
  pure emptyObj

/-- Rust `lookup_service` (lines 495-520). -/
def lookup_service {Blob : Type} (is_auth : Bool) (params : Except RpcError (Option String))
    (genDid : String → Except Unit Did) (storageFetch : Did → Except RpcError Unit)
    (storageCheckCache : Did → Option (List Blob))
    (decodeOp : Blob → Except Unit String) : Except RpcError (List String) := do
  require_authed is_auth
  let p ← params
  let name ← someOrInvalid p
  let rid ← match genDid name with
    | .ok v => pure v
    | .error _ => .error .InvalidParams
  storageFetch rid
  match storageCheckCache rid with
  | some data => pure ((data.map decodeOp).filterMap Except.toOption)
  | none => pure []

/-! ## Concrete signer suite for witnesses

A small executable instantiation of the `Crypto` bundle: keys are `Nat`,
the address of a key is the key itself, signing writes the key into a
one-element byte string and recovery reads it back.  It satisfies the
sign/recover contract, so universally quantified theorems can be
evaluated on it. -/

/-- Parse a decimal digit string (used by the toy suite's `Did` parser;
structural recursion keeps it kernel-evaluable). -/
def digitsToNatAux : List Char → Nat → Option Nat
  | [], acc => some acc
  | c :: cs, acc =>
      if c.isDigit then digitsToNatAux cs (acc * 10 + (c.toNat - 48)) else none

def parseNatStr (s : String) : Option Nat :=
  match s.data with
  | [] => none
  | l => digitsToNatAux l 0

def toyCrypto : Crypto Nat where
  secpRecover := fun _ sig =>
    match sig with
    | [k] => .ok k
    | _ => .error .BadSignature
  pkAddress := id
  eip191Verify := fun _ _ _ => false
  recoverHash := fun _ _ => .error .BadSignature
  edVerify := fun _ _ _ _ => false
  didStr := toString
  didFromStr := fun s =>
    match parseNatStr s with
    | some n => if n < 2 ^ 160 then .ok n else .error .Decode
    | none => .error .Decode
  pkFromB58 := fun _ => .error .Decode
  skAddress := id
  secpSignRaw := fun k _ => [k]

/-- A session that self-verifies under `toyCrypto` until `now = 1000`. -/
def toySession : Session Nat :=
  { session_id := 5
    authorizer := .Secp256k1 5
    ttl_ms := 1000
    ts_ms := 0
    sig := [5] }

/-- Rust `toySession` paired with its session key. -/
def toySM : SessionManager Nat := { session := toySession, session_key := 5 }

/-! ## Helper lemmas on the session layer -/

theorem secp256k1_verify_eq_true_iff {PK : Type} (c : Crypto PK) (msg : String)
    (address : Did) (sig : List Nat) :
    secp256k1_verify c msg address sig = true ↔
      ∃ pk, c.secpRecover msg sig = .ok pk ∧ c.pkAddress pk = address := by
  unfold secp256k1_verify
  cases h : c.secpRecover msg sig with
  | ok pk => simp [h, beq_iff_eq]
  | error e => simp [h]

theorem session_verify_ok_iff {PK : Type} (c : Crypto PK) (now : Nat) (s : Session PK)
    (msg : String) (sig : List Nat) :
    s.verify c now msg sig = .returned (.ok ()) ↔
      s.verify_self c now = .returned (.ok ()) ∧
        secp256k1_verify c msg s.session_id sig = true := by
  unfold Session.verify
  cases h : s.verify_self c now with
  | panicked r => simp [h]
  | returned res =>
      cases res with
      | ok u =>
          cases u
          split_ifs with hv
          · simp [h, hv]
          · simp [h, hv]
      | error e => simp [h]

theorem scheme_verify_panic_origin {PK : Type} (c : Crypto PK) (s : Session PK) (r : String)
    (h : s.scheme_verify c = .panicked r) : ∃ did, s.authorizer = .BIP137 did := by
  unfold Session.scheme_verify at h
  cases ha : s.authorizer with
  | Secp256k1 did => rw [ha] at h; simp at h
  | EIP191 did => rw [ha] at h; simp at h
  | BIP137 did => exact ⟨did, rfl⟩
  | Ed25519 pk => rw [ha] at h; simp at h

theorem verify_self_panicked_cases {PK : Type} (c : Crypto PK) (now : Nat) (s : Session PK)
    (r : String) (h : s.verify_self c now = .panicked r) :
    s.is_expired now = false ∧ s.scheme_verify c = .panicked r := by
  unfold Session.verify_self at h
  by_cases he : s.is_expired now
  · simp [he] at h
  · rw [if_neg he] at h
    refine ⟨by simpa using he, ?_⟩
    cases hs : s.scheme_verify c with
    | panicked r2 =>
        simp only [hs] at h
        injection h with h2
        rw [h2]
    | returned b => cases b <;> simp [hs] at h

theorem session_verify_panicked {PK : Type} (c : Crypto PK) (now : Nat) (s : Session PK)
    (msg : String) (sig : List Nat) (r : String)
    (h : s.verify c now msg sig = .panicked r) : s.verify_self c now = .panicked r := by
  unfold Session.verify at h
  cases hv : s.verify_self c now with
  | panicked r2 => simp only [hv] at h; exact h
  | returned res =>
      cases res with
      | ok u => simp only [hv] at h; split_ifs at h
      | error e => simp [hv] at h

/-- Modelled from the spec: `signers::secp256k1::recover` splits the
65-byte `(r ‖ s ‖ v)` signature (with `v ∈ {0, 1}` as recovery id) and
recovers over the scheme's 32-byte digest of the message; the digest
(Keccak-256 in the source) enters as a parameter. -/
def secp256k1_recover_model (digest : String → List Nat) (msg : String) (sig : List Nat) :
    Except SignerErr (Nat × Nat) :=
  if sig.length = 65 then ecdsaRecoverHash (digest msg) sig else .error .BadSignature

/-- The signer suite for the counterexamples: ECDSA-secp256k1 recovery
and the libsecp256k1 `recover_hash` are the real `ecdsaRecoverHash`.
The digest and address parameters are placeholders, but they cannot
affect the verdicts: recovery of the all-zero signature fails at the
`r = 0` range check, and the BIP-137 panic fires at the length check,
in both cases before the digest or the address derivation is
consulted. -/
def cxCrypto : Crypto (Nat × Nat) where
  secpRecover := secp256k1_recover_model fun _ => List.replicate 32 0
  pkAddress := fun q => q.1 % 2 ^ 160
  eip191Verify := fun _ _ _ => false
  recoverHash := ecdsaRecoverHash
  edVerify := fun _ _ _ _ => false
  didStr := toString
  didFromStr := fun _ => .error .Decode
  pkFromB58 := fun _ => .error .Decode
  skAddress := id
  secpSignRaw := fun _ _ => List.replicate 65 0

/-- The session on which the BIP-137 arm of `verify_self` panics: an
unexpired BIP-137 session whose authorizer signature is empty. -/
def cxBipSession : Session (Nat × Nat) :=
  { session_id := 0
    authorizer := .BIP137 0
    ttl_ms := 1000
    ts_ms := 0
    sig := [] }

/-- C1 counterexample.  An unexpired BIP-137 session with an empty
signature: `MessageVerification::verify` reaches `Session::verify_self`,
whose BIP-137 arm calls the in-src `bip137::verify` and panics in
`recover`'s `rotate_left(1)` instead of returning — refuting the claim
that `verify` returns `false` in every non-valid case rather than
panicking.  The suite carries the real modelled ECDSA recovery; it is
never consulted, the panic fires first. -/
theorem message_verification_panic_counterexample :
    cxBipSession.is_expired 0 = false ∧
    (MessageVerification.mk cxBipSession 7 3 []).verify cxCrypto 0 (some "null") =
      .panicked "rotate_left: mid greater than len" :=
  ⟨rfl, rfl⟩

/-- C1 (amended). `MessageVerification::verify(body)` returns `true` iff
the payload body serializes, the attached session self-verifies, and the
`sig` field recovers (under ECDSA-secp256k1) to a key whose address
equals `session.session_id`, over the string
`"{serialized_payload}\n{ts_ms}\n{ttl_ms}"`; in every other case it
returns `false` — except that it may panic instead of returning, which
happens only through the BIP-137 arm of the session check (the in-src
`bip137::verify` inherits `recover`'s panics on malformed session
signatures). -/
theorem message_verification_verify_iff {PK : Type} (c : Crypto PK) (now : Nat)
    (mv : MessageVerification PK) (serData : Option String) :
    (mv.verify c now serData = .returned true ↔
      ∃ msg, MessageVerification.pack_msg serData mv.ts_ms mv.ttl_ms = .ok msg ∧
        mv.session.verify_self c now = .returned (.ok ()) ∧
        ∃ pk, c.secpRecover msg mv.sig = .ok pk ∧
          c.pkAddress pk = mv.session.session_id) ∧
    (∀ r, mv.verify c now serData = .panicked r →
      ∃ did, mv.session.authorizer = .BIP137 did) := by
  constructor
  · cases serData with
    | none =>
        simp [MessageVerification.verify, MessageVerification.pack_msg]
    | some s =>
        simp only [MessageVerification.verify, MessageVerification.pack_msg]
        constructor
        · intro h
          refine ⟨s ++ "\n" ++ toString mv.ts_ms ++ "\n" ++ toString mv.ttl_ms, rfl, ?_⟩
          revert h
          cases hv : mv.session.verify c now
              (s ++ "\n" ++ toString mv.ts_ms ++ "\n" ++ toString mv.ttl_ms) mv.sig with
          | panicked r => intro h; exact absurd h (by simp)
          | returned res =>
              cases res with
              | ok u =>
                  intro _
                  cases u
                  have := (session_verify_ok_iff c now mv.session _ mv.sig).mp hv
                  exact ⟨this.1, (secp256k1_verify_eq_true_iff c _ _ _).mp this.2⟩
              | error e => intro h; exact absurd h (by simp)
        · rintro ⟨msg, hmsg, hself, pk, hrec, haddr⟩
          obtain rfl : s ++ "\n" ++ toString mv.ts_ms ++ "\n" ++ toString mv.ttl_ms = msg :=
            by injection hmsg
          have : mv.session.verify c now
              (s ++ "\n" ++ toString mv.ts_ms ++ "\n" ++ toString mv.ttl_ms) mv.sig =
                .returned (.ok ()) :=
            (session_verify_ok_iff c now mv.session _ mv.sig).mpr
              ⟨hself, (secp256k1_verify_eq_true_iff c _ _ _).mpr ⟨pk, hrec, haddr⟩⟩
          simp [this]
  · intro r h
    cases serData with
    | none => simp [MessageVerification.verify, MessageVerification.pack_msg] at h
    | some s =>
        simp only [MessageVerification.verify, MessageVerification.pack_msg] at h
        cases hv : mv.session.verify c now
            (s ++ "\n" ++ toString mv.ts_ms ++ "\n" ++ toString mv.ttl_ms) mv.sig with
        | panicked r2 =>
            exact scheme_verify_panic_origin c mv.session r2
              (verify_self_panicked_cases c now mv.session r2
                (session_verify_panicked c now mv.session _ mv.sig r2 hv)).2
        | returned res =>
            rw [hv] at h
            cases res with
            | ok u => simp at h
            | error e => simp at h

/-- Witness for the amended C1: the valid-payload direction evaluated on
the toy suite. -/
theorem message_verification_verify_iff_witness :
    (MessageVerification.mk toySession 7 3 [5]).verify toyCrypto 0 (some "null") =
      .returned true :=
  ((message_verification_verify_iff toyCrypto 0 (MessageVerification.mk toySession 7 3 [5])
      (some "null")).1).mpr ⟨"null\n3\n7", rfl, by rfl, 5, rfl, rfl⟩

/-- C3 counterexample.  An unexpired BIP-137 session with an empty
signature: `verify_self` does not return any of the three claimed
verdicts — it panics inside the in-src `bip137::verify` — so the claimed
exact return trichotomy over every `Session` is false. -/
theorem verify_self_panic_counterexample :
    cxBipSession.is_expired 0 = false ∧
    cxBipSession.verify_self cxCrypto 0 =
      .panicked "rotate_left: mid greater than len" :=
  ⟨rfl, rfl⟩

/-- C3 (amended). `Session::verify_self`, whenever it returns, satisfies
the claimed trichotomy: `Ok` exactly when `now ≤ ts_ms + ttl_ms` and the
signature verifies over the canonical string
`"{session_id}\n{ts_ms}\n{ttl_ms}"` under the scheme named by the
authorizer variant (`Session.scheme_verify`); `Err(SessionExpired)`
exactly when `now > ts_ms + ttl_ms`; `Err(VerifySignatureFailed)`
exactly when the session is unexpired but the signature check returns
false.  It may instead panic — only on an unexpired session whose
authorizer is BIP-137, where the in-src `bip137::verify` inherits
`recover`'s panics.  The hypothesis rules out `u128` wrap-around of
`ts_ms + ttl_ms`, on which the source's release-mode sum differs from
the mathematical one. -/
theorem session_verify_self_trichotomy {PK : Type} (c : Crypto PK) (now : Nat)
    (s : Session PK) (hsum : s.ts_ms + s.ttl_ms < 2 ^ 128) :
    (s.verify_self c now = .returned (.ok ()) ↔
      now ≤ s.ts_ms + s.ttl_ms ∧ s.scheme_verify c = .returned true) ∧
    (s.verify_self c now = .returned (.error .SessionExpired) ↔
      s.ts_ms + s.ttl_ms < now) ∧
    (s.verify_self c now = .returned (.error .VerifySignatureFailed) ↔
      now ≤ s.ts_ms + s.ttl_ms ∧ s.scheme_verify c = .returned false) ∧
    (∀ r, s.verify_self c now = .panicked r →
      now ≤ s.ts_ms + s.ttl_ms ∧ ∃ did, s.authorizer = .BIP137 did) := by
  have hexp : s.is_expired now = decide (s.ts_ms + s.ttl_ms < now) := by
    unfold Session.is_expired
    rw [Nat.mod_eq_of_lt hsum]
  refine ⟨?_, ?_, ?_, ?_⟩
  · unfold Session.verify_self
    rw [hexp]
    by_cases h1 : s.ts_ms + s.ttl_ms < now
    · simp [h1, Nat.not_le.mpr h1]
    · cases h2 : s.scheme_verify c with
      | panicked r2 => simp [h1, h2, Nat.not_lt.mp h1]
      | returned b => cases b <;> simp [h1, h2, Nat.not_lt.mp h1]
  · unfold Session.verify_self
    rw [hexp]
    by_cases h1 : s.ts_ms + s.ttl_ms < now
    · simp [h1]
    · cases h2 : s.scheme_verify c with
      | panicked r2 => simp [h1, h2]
      | returned b => cases b <;> simp [h1, h2]
  · unfold Session.verify_self
    rw [hexp]
    by_cases h1 : s.ts_ms + s.ttl_ms < now
    · simp [h1, Nat.not_le.mpr h1]
    · cases h2 : s.scheme_verify c with
      | panicked r2 => simp [h1, h2, Nat.not_lt.mp h1]
      | returned b => cases b <;> simp [h1, h2, Nat.not_lt.mp h1]
  · intro r h
    have hc := verify_self_panicked_cases c now s r h
    refine ⟨?_, scheme_verify_panic_origin c s r hc.2⟩
    have h1 := hc.1
    rw [hexp] at h1
    have : ¬ (s.ts_ms + s.ttl_ms < now) := by simpa using h1
    omega

/-- Witness for the amended C3: the trichotomy evaluated on `toySession`
under `toyCrypto` at `now = 10`, giving the `Ok` verdict. -/
theorem session_verify_self_trichotomy_witness :
    toySession.verify_self toyCrypto 10 = .returned (.ok ()) := by
  have h := session_verify_self_trichotomy toyCrypto 10 toySession (by norm_num [toySession])
  exact h.1.mpr ⟨by norm_num [toySession], by rfl⟩

/-! ## C2: payloads signed by a `SessionManager` -/


/-- A `SessionManager` (as Rust allows to construct, e.g. through
`SessionManager::from_str`) whose session is far from expiry but whose
authorizer signature is the unusable all-zero string. -/
def cxSM : SessionManager (Nat × Nat) :=
  { session :=
      { session_id := 0
        authorizer := .Secp256k1 0
        ttl_ms := 1000
        ts_ms := 0
        sig := List.replicate 65 0 }
    session_key := 0 }

/-- C2 counterexample. A `SessionManager` whose session is *not
expired* at verification time, a serializable body (`"null"`), and
`ts_ms = 3`, `ttl_ms = 7`: the `MessageVerification` built exactly as the
claim prescribes — `sig = sm.sign(pack_msg(data, ts_ms, ttl_ms))` —
fails `verify`, because `Session::verify` re-runs `verify_self` and the
session's own authorizer signature is invalid.  The claim quantifies over
every `SessionManager` assuming only non-expiry, so it is refuted. -/
theorem signed_payload_counterexample :
    cxSM.session.is_expired 0 = false ∧
    MessageVerification.pack_msg (some "null") 3 7 = .ok "null\n3\n7" ∧
    (MessageVerification.mk cxSM.session 7 3
        (cxSM.sign cxCrypto "null\n3\n7")).verify cxCrypto 0 (some "null") =
      .returned false :=
  ⟨rfl, rfl, rfl⟩

/-- C2 (amended). For every `SessionManager` whose session
self-verifies at verification time (in particular is not expired) and
whose `session_id` is the address of its session key — both guaranteed by
`SessionManagerBuilder::build` — and for every serializable body and
`ts_ms`/`ttl_ms`, the `MessageVerification` carrying
`sig = sm.sign(pack_msg(data, ts_ms, ttl_ms))` satisfies
`verify(data) = true`, provided ECDSA-secp256k1 recovery inverts session-key
signing (the contract of the external signer). -/
theorem signed_payload_verifies {PK : Type} (c : Crypto PK) (now : Nat)
    (sm : SessionManager PK) (serData : String) (ts_ms ttl_ms : Nat) (msg : String)
    (hmsg : MessageVerification.pack_msg (some serData) ts_ms ttl_ms = .ok msg)
    (hself : sm.session.verify_self c now = .returned (.ok ()))
    (hsid : sm.session.session_id = c.skAddress sm.session_key)
    (hsig : ∃ pk, c.secpRecover msg (c.secpSignRaw sm.session_key msg) = .ok pk ∧
      c.pkAddress pk = c.skAddress sm.session_key) :
    (MessageVerification.mk sm.session ttl_ms ts_ms (sm.sign c msg)).verify c now
      (some serData) = .returned true := by
  obtain ⟨pk, hrec, haddr⟩ := hsig
  have hmsg' : serData ++ "\n" ++ toString ts_ms ++ "\n" ++ toString ttl_ms = msg := by
    injection hmsg
  have hv : sm.session.verify c now msg (sm.sign c msg) = .returned (.ok ()) :=
    (session_verify_ok_iff c now sm.session msg _).mpr
      ⟨hself, (secp256k1_verify_eq_true_iff c msg _ _).mpr
        ⟨pk, by simpa [SessionManager.sign] using hrec, by rw [haddr, hsid]⟩⟩
  simp only [MessageVerification.verify, MessageVerification.pack_msg]
  rw [hmsg', hv]

/-- Witness for the amended C2 on the concrete toy suite. -/
theorem signed_payload_verifies_witness :
    (MessageVerification.mk toySM.session 7 3
      (toySM.sign toyCrypto "null\n3\n7")).verify toyCrypto 0 (some "null") =
      .returned true :=
  signed_payload_verifies toyCrypto 0 toySM "null" 3 7 "null\n3\n7"
    (by rfl) (by rfl) (by rfl) ⟨5, by rfl, by rfl⟩

/-! ## C5: `SessionManagerBuilder::build` -/

theorem try_from_error_classification {PK : Type} (c : Crypto PK)
    (entity ty : String) (e : Error)
    (h : Authorizer.try_from c entity ty = .error e) :
    e = .UnknownAuthorizer ∨ c.didFromStr entity = .error e ∨
      c.pkFromB58 entity = .error e := by
  unfold Authorizer.try_from at h
  split at h
  · cases hd : c.didFromStr entity <;> simp [hd, Except.map] at h
    exact Or.inr (Or.inl (congrArg Except.error h))
  · cases hd : c.didFromStr entity <;> simp [hd, Except.map] at h
    exact Or.inr (Or.inl (congrArg Except.error h))
  · cases hd : c.didFromStr entity <;> simp [hd, Except.map] at h
    exact Or.inr (Or.inl (congrArg Except.error h))
  · cases hd : c.pkFromB58 entity <;> simp [hd, Except.map] at h
    exact Or.inr (Or.inr (congrArg Except.error h))
  · exact Or.inl (by injection h with h; exact h.symm)

theorem verify_self_error_cases {PK : Type} (c : Crypto PK) (now : Nat) (s : Session PK)
    (e : Error) (h : s.verify_self c now = .returned (.error e)) :
    e = .SessionExpired ∨ e = .VerifySignatureFailed := by
  unfold Session.verify_self at h
  by_cases he : s.is_expired now
  · rw [if_pos he] at h
    injection h with h
    injection h with h
    simp [h]
  · rw [if_neg he] at h
    cases hs : s.scheme_verify c with
    | panicked r => simp [hs] at h
    | returned b =>
        cases b
        · simp only [hs] at h
          injection h with h
          injection h with h
          simp [h]
        · simp [hs] at h

/-- C5 (amended). `SessionManagerBuilder::build` never returns a
`SessionManager` whose session fails self-verification: a returned
manager's session passes `verify_self` at build time.  On a returned
failure the error is `VerifySignatureFailed`, `SessionExpired`,
`UnknownAuthorizer`, *or an error propagated from parsing the authorizer
entity* (`Did::from_str` / `PublicKey::try_from_b58t`) — the original
claim omitted the last group.  `build` can also panic instead of
returning, and only when the parsed authorizer is BIP-137 (the in-src
`bip137::verify` inside `verify_self` inherits `recover`'s panics on
malformed session signatures). -/
theorem builder_build_classification {PK : Type} (c : Crypto PK) (now : Nat)
    (b : SessionManagerBuilder) :
    (∀ sm : SessionManager PK, b.build c now = .returned (.ok sm) →
      sm.session.verify_self c now = .returned (.ok ())) ∧
    (∀ e : Error, b.build c now = .returned (.error e) →
      e = .VerifySignatureFailed ∨ e = .SessionExpired ∨ e = .UnknownAuthorizer ∨
      c.didFromStr b.authorizer_entity = .error e ∨
      c.pkFromB58 b.authorizer_entity = .error e) ∧
    (∀ r : String, b.build c now = .panicked r →
      ∃ did, Authorizer.try_from c b.authorizer_entity b.authorizer_type =
        .ok (.BIP137 did)) := by
  unfold SessionManagerBuilder.build
  cases ha : Authorizer.try_from c b.authorizer_entity b.authorizer_type with
  | error e0 =>
      refine ⟨?_, ?_, ?_⟩
      · intro sm h; simp [ha] at h
      · intro e h
        simp only [ha] at h
        injection h with h
        injection h with h
        subst h
        rcases try_from_error_classification c _ _ _ ha with h | h | h
        · exact Or.inr (Or.inr (Or.inl h))
        · exact Or.inr (Or.inr (Or.inr (Or.inl h)))
        · exact Or.inr (Or.inr (Or.inr (Or.inr h)))
      · intro r h; simp [ha] at h
  | ok a =>
      cases hv : Session.verify_self c now
          { session_id := c.skAddress b.session_key, authorizer := a,
            ttl_ms := b.ttl_ms, ts_ms := b.ts_ms, sig := b.sig } with
      | panicked r0 =>
          refine ⟨?_, ?_, ?_⟩
          · intro sm h; simp [ha, hv] at h
          · intro e h; simp [ha, hv] at h
          · intro r h
            obtain ⟨did, hdid⟩ := scheme_verify_panic_origin c _ r0
              (verify_self_panicked_cases c now _ r0 hv).2
            have ha2 : a = .BIP137 did := hdid
            refine ⟨did, ?_⟩
            rw [ha2]
      | returned res =>
          cases res with
          | error e0 =>
              refine ⟨?_, ?_, ?_⟩
              · intro sm h; simp [ha, hv] at h
              · intro e h
                simp only [ha, hv] at h
                injection h with h
                injection h with h
                subst h
                rcases verify_self_error_cases c now _ _ hv with h | h
                · exact Or.inr (Or.inl h)
                · exact Or.inl h
              · intro r h; simp [ha, hv] at h
          | ok u =>
              cases u
              refine ⟨?_, ?_, ?_⟩
              · intro sm h
                simp only [ha, hv] at h
                injection h with h
                injection h with h
                rw [← h]
                exact hv
              · intro e h; simp [ha, hv] at h
              · intro r h; simp [ha, hv] at h

/-- A builder that `toyCrypto` accepts: entity `"5"`, type `"secp256k1"`,
signature `[5]`. -/
def goodBuilder : SessionManagerBuilder :=
  { session_key := 5
    authorizer_entity := "5"
    authorizer_type := "secp256k1"
    ttl_ms := 1000
    ts_ms := 0
    sig := [5] }

/-- Witness for the amended C5: the manager built from `goodBuilder`
self-verifies. -/
theorem builder_build_classification_witness :
    toySM.session.verify_self toyCrypto 10 = .returned (.ok ()) :=
  (builder_build_classification toyCrypto 10 goodBuilder).1 toySM (by rfl)

/-- A builder whose authorizer parses to BIP-137 but whose signature is
empty. -/
def bipBuilder : SessionManagerBuilder :=
  { session_key := 5
    authorizer_entity := "5"
    authorizer_type := "bip137"
    ttl_ms := 1000
    ts_ms := 0
    sig := [] }

/-- The panic carve-out of the amended C5 is real: `build` with a
parseable BIP-137 entity and an empty signature reaches the in-src
`bip137::verify` inside `verify_self` and panics. -/
theorem builder_build_panic_example :
    bipBuilder.build toyCrypto 0 =
      (.panicked "rotate_left: mid greater than len" :
        PanicOr (Except Error (SessionManager Nat))) := rfl

/-- A builder whose authorizer entity does not parse as a `Did`. -/
def badBuilder : SessionManagerBuilder :=
  { session_key := 5
    authorizer_entity := "xyz"
    authorizer_type := "secp256k1"
    ttl_ms := 1000
    ts_ms := 0
    sig := [5] }

/-- C5 counterexample. With authorizer type `"secp256k1"` and an
entity string that is not an identifier, `build` fails with the
entity-parsing error (`Decode`), which is none of the three errors the
claim allows. -/
theorem builder_build_counterexample :
    badBuilder.build toyCrypto 0 =
      (.returned (.error .Decode) : PanicOr (Except Error (SessionManager Nat))) ∧
    Error.Decode ≠ Error.VerifySignatureFailed ∧
    Error.Decode ≠ Error.SessionExpired ∧
    Error.Decode ≠ Error.UnknownAuthorizer :=
  ⟨rfl, by decide⟩

/-! ## C6: `dump` / `from_str` round trip -/

/-- C6. `dump` is base58-check over the canonical JSON bytes of the
manager and `from_str` inverts it: whenever the JSON serialization of
`sm` succeeds and the external codecs round-trip at the produced values
(`serde_json` and `base58_monero` live outside the analysed sources, so
their round-trip laws are hypotheses), `from_str (dump sm) = Ok sm`; and
on *every* input, `from_str` fails only with `Decode` (bad base58-check)
or `Deserialize` (bad JSON). -/
theorem dump_from_str_roundtrip {PK : Type}
    (jsonToString : SessionManager PK → Except Unit String)
    (strToBytes : String → List Nat)
    (b58encodeCheck : List Nat → Except Unit String)
    (b58decodeCheck : String → Except Unit (List Nat))
    (jsonFromBytes : List Nat → Except Unit (SessionManager PK))
    (sm : SessionManager PK) (s d : String)
    (h1 : jsonToString sm = .ok s)
    (h2 : b58encodeCheck (strToBytes s) = .ok d)
    (h3 : b58decodeCheck d = .ok (strToBytes s))
    (h4 : jsonFromBytes (strToBytes s) = .ok sm) :
    SessionManager.dump jsonToString strToBytes b58encodeCheck sm = .ok d ∧
    SessionManager.from_str b58decodeCheck jsonFromBytes d = .ok sm ∧
    ∀ t e, SessionManager.from_str b58decodeCheck jsonFromBytes t = .error e →
      e = .Decode ∨ e = .Deserialize := by
  refine ⟨?_, ?_, ?_⟩
  · simp [SessionManager.dump, h1, h2]
  · simp [SessionManager.from_str, h3, h4]
  · intro t e h
    unfold SessionManager.from_str at h
    cases hb : b58decodeCheck t with
    | error u => simp only [hb] at h; injection h with h; simp [h]
    | ok bytes =>
        simp only [hb] at h
        cases hj : jsonFromBytes bytes with
        | error u => simp only [hj] at h; injection h with h; simp [h]
        | ok sm2 => simp only [hj] at h; cases h

/-- Concrete pointwise codecs for the C6 witness. -/
def toyJsonEnc : SessionManager Nat → Except Unit String := fun _ => .ok "J"

def toyB58Enc : List Nat → Except Unit String := fun _ => .ok "X"

def toyB58Dec : String → Except Unit (List Nat) :=
  fun t => if t = "X" then .ok (strBytes "J") else .error ()

def toyJsonDec : List Nat → Except Unit (SessionManager Nat) :=
  fun bs => if bs = strBytes "J" then .ok toySM else .error ()

/-- Witness for C6 at the toy codecs. -/
theorem dump_from_str_roundtrip_witness :
    SessionManager.dump toyJsonEnc strBytes toyB58Enc toySM = .ok "X" ∧
    SessionManager.from_str toyB58Dec toyJsonDec "X" = .ok toySM :=
  ⟨(dump_from_str_roundtrip toyJsonEnc strBytes toyB58Enc toyB58Dec toyJsonDec toySM
      "J" "X" (by rfl) (by rfl) (by rfl) (by rfl)).1,
   (dump_from_str_roundtrip toyJsonEnc strBytes toyB58Enc toyB58Dec toyJsonDec toySM
      "J" "X" (by rfl) (by rfl) (by rfl) (by rfl)).2.1⟩

/-! ## C4: panic behaviour of `bip137::recover` -/

/-- C4 counterexample. `bip137::recover` panics on the empty
signature: `Vec::rotate_left(1)` requires `mid ≤ len`.  (Any signature
shorter than 65 bytes likewise panics, at the `array_mut_ref!` bounds
check.)  This refutes the claim that `recover` never panics. -/
theorem bip137_recover_counterexample :
    bip137_recover ecdsaRecoverHash "Hello World 42" [] =
      .panicked "rotate_left: mid greater than len" := rfl

/-- C4 (amended). `bip137::recover` does not panic — it hands the
digest and the normalized 65-byte signature to `recover_hash`, whose
outcome is a recovered key or one of the signer errors `BadSignature`,
`BadRecoveryId`, `CurveError` — *provided* the signature has at least 65
bytes and the byte that ends up in the recovery-id slot after the
`rotate_left(1)` is at least 27 (for a 65-byte signature that byte is the
leading `v`); signatures shorter than 65 bytes panic in the
`rotate_left` / `array_mut_ref!` bounds checks, and a recovery byte below
27 underflows the checked `sig_byte[64] -= 27`. -/
theorem bip137_recover_no_panic {PK : Type}
    (recover_hash : List Nat → List Nat → Except SignerErr PK) (msg : String)
    (sig : List Nat) (h65 : 65 ≤ sig.length)
    (hv : 27 ≤ ((rotate_left_one sig).take 65).getD 64 0) :
    bip137_recover recover_hash msg sig =
      .returned (recover_hash (magic_hash msg)
        (((rotate_left_one sig).take 65).take 64 ++
          [((rotate_left_one sig).take 65).getD 64 0 - 27])) := by
  have hlen : (rotate_left_one sig).length = sig.length := by
    cases sig with
    | nil => rfl
    | cons x xs => simp [rotate_left_one]
  unfold bip137_recover
  rw [if_neg (by omega), if_neg (by omega), if_neg (by omega)]

/-- Witness for the amended C4 on a concrete 65-byte signature with
`v = 27`. -/
theorem bip137_recover_no_panic_witness :
    bip137_recover (fun _ _ => (.error .BadSignature : Except SignerErr Nat)) "m"
      (27 :: List.replicate 64 0) = .returned (.error .BadSignature) :=
  bip137_recover_no_panic (fun _ _ => (.error .BadSignature : Except SignerErr Nat)) "m"
    (27 :: List.replicate 64 0) (by decide) (by decide)

/-! ## C8: the BIP-137 fixture round trip -/

def fixtureMsg : String := "Hello World 42"

/-- The 65-byte fixture signature from the repository test
(src/core/src/ecc/signers/bip137.rs, lines 95-100). -/
def fixtureSig : List Nat :=
  [27, 204, 122, 109, 87, 84, 60, 195, 135, 84, 231, 22, 77, 88, 215, 161, 77, 74, 181,
   192, 19, 219, 188, 251, 142, 104, 2, 233, 132, 82, 171, 102, 125, 114, 45, 23, 202, 59,
   86, 236, 76, 169, 164, 164, 179, 221, 206, 54, 32, 106, 81, 115, 217, 42, 93, 114, 131,
   115, 128, 227, 45, 231, 30, 111, 34]

/-- The compressed SEC1 bytes of the fixture public key
`026a626503429a973dc4fcde64fa7932158a20c69b79c9eab1245577dd43674dc5`. -/
def fixturePubkeyBytes : List Nat :=
  [2, 106, 98, 101, 3, 66, 154, 151, 61, 196, 252, 222, 100, 250, 121, 50, 21, 138, 32,
   198, 155, 121, 201, 234, 177, 36, 85, 119, 221, 67, 103, 77, 197]

def fixturePubkeyX : Nat :=
  0x6a626503429a973dc4fcde64fa7932158a20c69b79c9eab1245577dd43674dc5

def fixturePubkeyY : Nat :=
  0xb8f9f5e86d96255378e7902cc40dc18173d76a676da0d3f1930788fb35c1c3f4

/-- Modelled from the spec: `PublicKey` equality and
`PublicKey::from_hex_string` work on the SEC1 compressed encoding —
`02`/`03` parity prefix followed by the big-endian `x` coordinate. -/
def sec1Compress (q : Nat × Nat) : List Nat :=
  (if q.2 % 2 = 0 then 0x02 else 0x03) :: beBytes 32 q.1

set_option maxRecDepth 100000 in
theorem fixture_recover_eq :
    bip137_recover ecdsaRecoverHash fixtureMsg fixtureSig =
      .returned (.ok (fixturePubkeyX, fixturePubkeyY)) := rfl

/-- C8. On the repository fixture — message `"Hello World 42"`, the
65-byte signature starting `[27, 204, 122, …]` and ending `[…, 111, 34]` —
`bip137::recover` returns exactly the public key
`026a626503429a973dc4fcde64fa7932158a20c69b79c9eab1245577dd43674dc5`
(its compressed SEC1 bytes match, coordinatewise), and for the address
derivation applied to that very key, `bip137::verify(msg, pubkey.address(), sig)`
returns `true`. -/
theorem bip137_fixture_roundtrip :
    (bip137_recover ecdsaRecoverHash fixtureMsg fixtureSig =
        .returned (.ok (fixturePubkeyX, fixturePubkeyY)) ∧
      sec1Compress (fixturePubkeyX, fixturePubkeyY) = fixturePubkeyBytes) ∧
    ∀ addrFn : Nat × Nat → Nat,
      bip137_verify ecdsaRecoverHash addrFn fixtureMsg
        (addrFn (fixturePubkeyX, fixturePubkeyY)) fixtureSig = .returned true := by
  refine ⟨⟨fixture_recover_eq, by rfl⟩, ?_⟩
  intro addrFn
  unfold bip137_verify
  rw [fixture_recover_eq]
  simp

/-! ## C9: the authentication gate of the JSON-RPC handlers -/

/-- C9. With `is_auth = false`, every mutating handler that calls
`RpcMeta::require_authed` — `connect_peer_via_http`, `connect_with_seed`,
`connect_with_did`, `create_offer`, `accept_answer`, `close_connection`,
`send_raw_message`, `send_custom_message`, `publish_message_to_topic`,
`fetch_messages_of_topic`, `register_service`, and the remaining authed
handlers `list_peers`, `list_pendings`, `close_pending_transport`,
`send_simple_text_message`, `send_http_request_message`,
`lookup_service` — returns `NoPermission` before doing any work: the
result is `NoPermission` for *every* instantiation of the parameter
parsers and processor effects, so none of them is consulted.
`answer_offer`, by contrast, ignores `is_auth` entirely (its result is
the same for any two flag values), and with `is_auth = false` it still
decodes and processes the offer: when every step succeeds it returns the
processed value. -/
theorem auth_gate_coverage :
    ∀ (V Seed Payload APayload Enc Req Blob : Type)
      (paramsS : Except RpcError (List String))
      (paramsSeed : Except RpcError (List Seed))
      (didParse : String → Except Unit Did)
      (connectOp : String → Except RpcError V)
      (connectSeedOp : Seed → Except RpcError V)
      (connectDidOp : Did → Except RpcError V)
      (createOfferOp : Except RpcError Payload)
      (encodeOp : Payload → Except Unit String)
      (toValueOp : String → Except Unit V)
      (fromEncoded : String → Except Unit Payload)
      (answerOfferOp : Payload → Except RpcError APayload)
      (encodeOp2 : APayload → Except Unit String)
      (acceptAnswerOp : Payload → Except RpcError V)
      (listOp pendOp : Except RpcError V)
      (disconnectOp : Did → Except RpcError Unit)
      (closeOp : String → Except RpcError Unit)
      (emptyObj : V)
      (rawParams : Except RpcError RawMsgParams)
      (sendOp : String → String → Except RpcError V)
      (customParams : Except RpcError CustomMsgParams)
      (b64 : String → Except Unit (List Nat))
      (sendCustomOp : String → Nat → List Nat → Except RpcError V)
      (textParams pubParams : Except RpcError (Option String × Option String))
      (httpParams : Except RpcError (Option String × Option Req))
      (sendHttpOp : String → Req → Except RpcError V)
      (encOp : String → Except Unit Enc)
      (appendOp : String → Enc → Except RpcError Unit)
      (fetchParams : Except RpcError FetchParams)
      (genDid : String → Except Unit Did)
      (storageFetch : Did → Except RpcError Unit)
      (cache : Did → Option (List Blob))
      (decodeOp : Blob → Except Unit String)
      (svcParams : Except RpcError (Option String))
      (registerOp : String → Except RpcError Unit),
    connect_peer_via_http false paramsS connectOp = .error .NoPermission ∧
    connect_with_seed false paramsSeed connectSeedOp = .error .NoPermission ∧
    connect_with_did false paramsS didParse connectDidOp = .error .NoPermission ∧
    create_offer false createOfferOp encodeOp toValueOp = .error .NoPermission ∧
    accept_answer false paramsS fromEncoded acceptAnswerOp = .error .NoPermission ∧
    close_connection false paramsS didParse disconnectOp emptyObj = .error .NoPermission ∧
    list_peers false listOp = .error .NoPermission ∧
    list_pendings false pendOp = .error .NoPermission ∧
    close_pending_transport false paramsS closeOp emptyObj = .error .NoPermission ∧
    send_raw_message false rawParams sendOp = .error .NoPermission ∧
    send_custom_message false customParams b64 sendCustomOp = .error .NoPermission ∧
    send_simple_text_message false textParams sendOp = .error .NoPermission ∧
    send_http_request_message false httpParams sendHttpOp = .error .NoPermission ∧
    publish_message_to_topic false pubParams encOp appendOp emptyObj =
      .error .NoPermission ∧
    fetch_messages_of_topic false fetchParams genDid storageFetch cache decodeOp =
      .error .NoPermission ∧
    register_service false svcParams registerOp emptyObj = .error .NoPermission ∧
    lookup_service false svcParams genDid storageFetch cache decodeOp =
      .error .NoPermission ∧
    (∀ a1 a2 : Bool,
      answer_offer a1 paramsS fromEncoded answerOfferOp encodeOp2 toValueOp =
        answer_offer a2 paramsS fromEncoded answerOfferOp encodeOp2 toValueOp) ∧
    (∀ (s enc : String) (pl : Payload) (ap : APayload) (v : V),
      answer_offer false (.ok [s]) (fun _ => .ok pl) (fun _ => .ok ap)
        (fun _ => .ok enc) (fun _ => .ok v) = .ok v) := by
  intros
  exact ⟨rfl, rfl, rfl, rfl, rfl, rfl, rfl, rfl, rfl, rfl, rfl, rfl, rfl, rfl, rfl, rfl,
    rfl, fun _ _ => rfl, fun _ _ _ _ _ => rfl⟩

/-! ## C10: negative index in `fetch_messages_of_topic` -/

/-- C10. An authenticated `fetch_messages_of_topic` call with a
negative `index` returns the empty message list (no error, no panic) for
any cached vnode holding fewer than `2^63` entries: the `i64` index is
cast to `usize` with a two's-complement wrap, so the `skip` count is at
least `2^63` and exceeds the sequence length. -/
theorem fetch_negative_index_returns_empty {Blob : Type}
    (params : Except RpcError FetchParams) (genDid : String → Except Unit Did)
    (storageFetch : Did → Except RpcError Unit) (cache : Did → Option (List Blob))
    (decodeOp : Blob → Except Unit String)
    (topic : String) (i : Int) (vid : Did) (data : List Blob)
    (hp : params = .ok { topic := some topic, index := some i })
    (hneg : i < 0) (hlo : -(2 ^ 63) ≤ i)
    (hdid : genDid topic = .ok vid)
    (hfetch : storageFetch vid = .ok ())
    (hcache : cache vid = some data)
    (hlen : data.length < 2 ^ 63) :
    fetch_messages_of_topic true params genDid storageFetch cache decodeOp = .ok [] := by
  have hcast : 2 ^ 63 ≤ usize_of_i64 i := by
    unfold usize_of_i64
    omega
  have hdrop : data.drop (usize_of_i64 i) = [] :=
    List.drop_eq_nil_of_le (by omega)
  subst hp
  simp only [fetch_messages_of_topic, require_authed, someOrInvalid, hdid, hfetch, hcache,
    bind, Except.bind, pure, Except.pure, Bool.not_true, Bool.false_eq_true, if_false]
  rw [hdrop]
  rfl

/-- Witness for C10 at `index = -1` over a one-entry cache. -/
theorem fetch_negative_index_returns_empty_witness :
    fetch_messages_of_topic true
      (.ok { topic := some "t", index := some (-1) })
      (fun _ => .ok 1) (fun _ => .ok ()) (fun _ => some [0])
      (fun _ => .ok "x") = .ok ([] : List String) :=
  fetch_negative_index_returns_empty
    (.ok { topic := some "t", index := some (-1) })
    (fun _ => .ok 1) (fun _ => .ok ()) (fun _ => some [(0 : Nat)])
    (fun _ => .ok "x") "t" (-1) 1 [0]
    rfl (by decide) (by decide) rfl rfl rfl (by decide)

end RingsNode
